import Mathlib

/-!
Verification of the fal.ai MCP server's tool-dispatch and result-normalization
pipeline, as a shallow embedding of the TypeScript sources:
the URL extractors and the per-tool dispatch handler (index source),
the `FalClient` timeout policy and error classifier (fal-client source),
and `loadConfig` (config source).

JavaScript values are modelled by `JVal`; property access on a missing key or
a non-object yields `none` (JS `undefined`).  JS numbers are modelled as
rationals (floating-point rounding plays no role in any verified property);
the one place where `NaN` matters (`parseInt` in `loadConfig`) uses the
dedicated `JSNum` type.  `JSON.stringify(x, null, 2)` is modelled by a
serializer that abstracts from the pretty-printing whitespace; no verified
property depends on the serialized text.
-/

/-- Model of a JavaScript (JSON-like) runtime value. -/
inductive JVal where
  | null
  | bool (b : Bool)
  | num (q : ℚ)
  | str (s : String)
  | arr (elems : List JVal)
  | obj (fields : List (String × JVal))

/-- Lookup of a key in an object's field list (object literals in the source
have pairwise distinct keys, so first-match lookup is faithful). -/
def lookupPairs : List (String × JVal) → String → Option JVal
  | [], _ => none
  | (k, v) :: rest, key => if k = key then some v else lookupPairs rest key

/-- JS property access `v.k`: `none` models `undefined` (missing key, or a
receiver that is not an object). -/
def getField : JVal → String → Option JVal
  | JVal.obj fs, k => lookupPairs fs k
  | _, _ => none

/-- Chained access `v.k1?.k2` (and `v.k1.k2` on the payloads considered). -/
def getField2 (v : JVal) (k1 k2 : String) : Option JVal :=
  (getField v k1).bind (fun w => getField w k2)

/-- JS truthiness of a value. -/
def jsTruthy : JVal → Bool
  | JVal.null => false
  | JVal.bool b => b
  | JVal.num q => if q = 0 then false else true
  | JVal.str s => if s = "" then false else true
  | JVal.arr _ => true
  | JVal.obj _ => true

/-- JS truthiness with `none` as `undefined` (falsy). -/
def truthyO : Option JVal → Bool
  | some v => jsTruthy v
  | none => false

/-- Keep a probed value only when it is truthy: one step of the
`if (expr) return expr;` chains in the extractors. -/
def probe (o : Option JVal) : Option JVal :=
  if truthyO o then o else none

/-- JS `a || b` on a possibly-undefined left operand. -/
def jsOr (a : Option JVal) (b : JVal) : JVal :=
  match probe a with
  | some v => v
  | none => b

/-- Helper: `extractImageUrls` from the dispatcher source.  The source first
tests `data.images && Array.isArray(data.images)`; an array is always truthy
in JS, so the guard holds exactly when the `images` field is an array. -/
def extractImageUrls (data : JVal) : List JVal :=
  match getField data "images" with
  | some (JVal.arr imgs) =>
      (imgs.map (fun img => jsOr (getField img "url") img)).filter jsTruthy
  | _ =>
      match probe (getField2 data "image" "url") <|> probe (getField data "image_url")
            <|> probe (getField2 data "output" "url") <|> probe (getField data "url") with
      | some u => [u]
      | none => []

/-- Helper: `extractVideoUrl` from the dispatcher source. -/
def extractVideoUrl (data : JVal) : Option JVal :=
  probe (getField2 data "video" "url") <|> probe (getField data "video_url")
    <|> probe (getField2 data "output" "url") <|> probe (getField data "url")

/-- Helper: `extractAudioUrl` from the dispatcher source. -/
def extractAudioUrl (data : JVal) : Option JVal :=
  probe (getField2 data "audio" "url") <|> probe (getField data "audio_url")
    <|> probe (getField2 data "audio_file" "url")
    <|> probe (getField2 data "output" "url") <|> probe (getField data "url")

/-- Helper: `extract3DUrl` from the dispatcher source. -/
def extract3DUrl (data : JVal) : Option JVal :=
  probe (getField2 data "model" "url") <|> probe (getField data "model_url")
    <|> probe (getField2 data "mesh" "url") <|> probe (getField2 data "output" "url")
    <|> probe (getField2 data "glb" "url") <|> probe (getField data "url")

/-! ## Configuration (`loadConfig`) -/

/-- A JS number that may be `NaN`, as produced by `parseInt`. -/
inductive JSNum where
  | nan
  | val (n : ℤ)
deriving DecidableEq

/-- JS comparison `x <= 0`: false whenever `x` is `NaN`. -/
def jsLeZero : JSNum → Bool
  | JSNum.nan => false
  | JSNum.val n => if n ≤ 0 then true else false

/-- The value is an actual (non-`NaN`) positive number. -/
def jsPositive : JSNum → Bool
  | JSNum.nan => false
  | JSNum.val n => if 0 < n then true else false

/-- Numeric value of a digit string. -/
def digitsVal (cs : List Char) : ℕ :=
  cs.foldl (fun a c => a * 10 + (c.toNat - 48)) 0

/-- JS `parseInt(s, 10)`: skip leading whitespace, optional sign, then the
longest prefix of decimal digits; `NaN` when that prefix is empty. -/
def parseIntJS (s : String) : JSNum :=
  let cs := s.data.dropWhile (fun c => c.isWhitespace)
  let signed : ℤ × List Char :=
    match cs with
    | '-' :: t => (-1, t)
    | '+' :: t => (1, t)
    | t => (1, t)
  let ds := signed.2.takeWhile (fun c => c.isDigit)
  if ds.isEmpty then JSNum.nan else JSNum.val (signed.1 * (digitsVal ds : ℤ))

/-- The process environment variables read by `loadConfig`
(`none` models an unset variable). -/
structure Env where
  falKey : Option String := none
  falOutputDir : Option String := none
  falTimeout : Option String := none

/-- The `Config` record produced by `loadConfig`. -/
structure Config where
  apiKey : String
  timeout : JSNum
  outputDir : String
deriving DecidableEq

/-- JS `a || dflt` on an optional environment string (empty string is falsy). -/
def strOrDefault (a : Option String) (dflt : String) : String :=
  match a with
  | some s => if s = "" then dflt else s
  | none => dflt

/-- `loadConfig` from the config source: requires a truthy `FAL_KEY`, defaults
the output directory, parses `FAL_TIMEOUT` with `parseInt` (default 120000)
and rejects a result `<= 0`. -/
def loadConfig (env : Env) : Except String Config :=
  match env.falKey with
  | none => Except.error ("fal.ai API key not configured. Please set the FAL_KEY environment variable.")
  | some key =>
      if key = "" then
        Except.error ("fal.ai API key not configured. Please set the FAL_KEY environment variable.")
      else
        let outputDir := strOrDefault env.falOutputDir "./generated-media"
        let timeout :=
          match env.falTimeout with
          | some t => if t = "" then JSNum.val 120000 else parseIntJS t
          | none => JSNum.val 120000
        if jsLeZero timeout then
          Except.error ("FAL_TIMEOUT must be a positive number")
        else
          Except.ok { apiKey := key, timeout := timeout, outputDir := outputDir }

/-! ## Tool catalogue and `FalClient` timeout policy -/

/-- The 22 tools of the dispatch handler, in source order. -/
inductive ToolName where
  | generate_image
  | edit_image
  | image_to_image
  | inpaint
  | style_transfer
  | text_to_video
  | image_to_video
  | lipsync
  | avatar_video
  | upscale_image
  | upscale_video
  | remove_background
  | remove_video_background
  | face_swap_image
  | face_swap_video
  | segment_image
  | estimate_depth
  | generate_music
  | text_to_speech
  | generate_sound_effect
  | image_to_3d
  | retexture_3d
deriving DecidableEq

/-- Timeout raced against the upstream call by `FalClient.run`. -/
def runTimeoutMs (timeout : ℤ) : ℤ := timeout

/-- Timeout raced against the upstream call by `FalClient.runLong`:
`this.timeout * 5`. -/
def runLongTimeoutMs (timeout : ℤ) : ℤ := timeout * 5

/-- For each tool, the timeout its `FalClient` method races upstream against,
mirroring which of `run` / `runLong` each method calls in the client source. -/
def methodTimeoutMs (timeout : ℤ) : ToolName → ℤ
  | ToolName.generate_image => runTimeoutMs timeout          -- generateImage uses run
  | ToolName.edit_image => runTimeoutMs timeout              -- editImage uses run
  | ToolName.image_to_image => runTimeoutMs timeout          -- imageToImage uses run
  | ToolName.inpaint => runTimeoutMs timeout                 -- inpaint uses run
  | ToolName.style_transfer => runTimeoutMs timeout          -- styleTransfer uses run
  | ToolName.text_to_video => runLongTimeoutMs timeout       -- textToVideo uses runLong
  | ToolName.image_to_video => runLongTimeoutMs timeout      -- imageToVideo uses runLong
  | ToolName.lipsync => runLongTimeoutMs timeout             -- lipsync uses runLong
  | ToolName.avatar_video => runLongTimeoutMs timeout        -- avatarVideo uses runLong
  | ToolName.upscale_image => runTimeoutMs timeout           -- upscaleImage uses run
  | ToolName.upscale_video => runLongTimeoutMs timeout       -- upscaleVideo uses runLong
  | ToolName.remove_background => runTimeoutMs timeout       -- removeBackground uses run
  | ToolName.remove_video_background => runLongTimeoutMs timeout -- removeVideoBackground uses runLong
  | ToolName.face_swap_image => runTimeoutMs timeout         -- faceSwapImage uses run
  | ToolName.face_swap_video => runLongTimeoutMs timeout     -- faceSwapVideo uses runLong
  | ToolName.segment_image => runTimeoutMs timeout           -- segmentImage uses run
  | ToolName.estimate_depth => runTimeoutMs timeout          -- estimateDepth uses run
  | ToolName.generate_music => runLongTimeoutMs timeout      -- generateMusic uses runLong
  | ToolName.text_to_speech => runTimeoutMs timeout          -- textToSpeech uses run
  | ToolName.generate_sound_effect => runTimeoutMs timeout   -- generateSoundEffect uses run
  | ToolName.image_to_3d => runLongTimeoutMs timeout         -- imageTo3D uses runLong
  | ToolName.retexture_3d => runLongTimeoutMs timeout        -- retexture3D uses runLong

/-- Modelled from the claim: the latency classification asserted by the spec
sentence, whose long class comprises "the video, audio, and 3D jobs". -/
def claimLongClass : ToolName → Bool
  | ToolName.text_to_video => true
  | ToolName.image_to_video => true
  | ToolName.lipsync => true
  | ToolName.avatar_video => true
  | ToolName.upscale_video => true
  | ToolName.remove_video_background => true
  | ToolName.face_swap_video => true
  | ToolName.generate_music => true
  | ToolName.text_to_speech => true
  | ToolName.generate_sound_effect => true
  | ToolName.image_to_3d => true
  | ToolName.retexture_3d => true
  | _ => false

/-- The latency classification actually wired in the client source: the video
jobs, music generation and the 3D jobs are long; text-to-speech and
sound-effect generation are short, as are all image-output jobs. -/
def amendedLongClass : ToolName → Bool
  | ToolName.text_to_video => true
  | ToolName.image_to_video => true
  | ToolName.lipsync => true
  | ToolName.avatar_video => true
  | ToolName.upscale_video => true
  | ToolName.remove_video_background => true
  | ToolName.face_swap_video => true
  | ToolName.generate_music => true
  | ToolName.image_to_3d => true
  | ToolName.retexture_3d => true
  | _ => false

/-! ## Error classifier (`FalClient.handleError`) -/

/-- Model of a JS error value as observed by `handleError`: its `message`,
HTTP `status`, OS error `code`, response `body`, and its own string coercion
`String(error)` (used only by the generic fallback template). -/
structure JSError where
  message : Option String := none
  status : Option ℤ := none
  code : Option String := none
  body : Option JVal := none
  asString : String := ""

mutual

/-- Approximation of JS string coercion for interpolated values; the string
case (the only one exercised by upstream `detail` texts) is exact. -/
def jsToStr : JVal → String
  | JVal.null => "null"
  | JVal.bool b => if b then "true" else "false"
  | JVal.num q => toString q
  | JVal.str s => s
  | JVal.arr xs => String.intercalate "," (jsToStrList xs)
  | JVal.obj _ => "[object Object]"

/-- String coercions of the elements of an array value. -/
def jsToStrList : List JVal → List String
  | [] => []
  | x :: xs => jsToStr x :: jsToStrList xs

end

/-- Interpolation of `error.body?.detail || error.message` in the
422 branch of `handleError`. -/
def detailOrMessage (e : JSError) : String :=
  match probe (e.body.bind (fun b => getField b "detail")) with
  | some d => jsToStr d
  | none =>
      match e.message with
      | some m => m
      | none => "undefined"

/-- Interpolation of `${error.message}` (undefined prints as "undefined"). -/
def messageText (e : JSError) : String :=
  match e.message with
  | some m => m
  | none => "undefined"

/-- Interpolation of `error.message || error` in the generic fallback. -/
def messageOrError (e : JSError) : String :=
  match e.message with
  | some m => if m = "" then e.asString else m
  | none => e.asString

/-- `FalClient.handleError`: the if-chain of the client source, returning the
message of the `Error` it constructs. -/
def handleError (e : JSError) : String :=
  if e.message = some ("Request timeout") then
    "fal.ai request timed out. This model may take longer — try again or increase FAL_TIMEOUT."
  else if e.status = some 401 ∨ e.status = some 403 then
    "Invalid fal.ai API key. Please check your FAL_KEY environment variable."
  else if e.status = some 429 then
    "fal.ai rate limit exceeded. Please wait a moment and try again."
  else if e.status = some 422 then
    "fal.ai validation error: " ++ detailOrMessage e
  else if e.code = some ("ENOTFOUND") ∨ e.code = some ("ECONNREFUSED") then
    "Failed to connect to fal.ai API: " ++ messageText e
  else
    "fal.ai API error: " ++ messageOrError e

/-- First-match-wins composition of an ordered rule list with a fallback:
exactly one message is produced. -/
def firstMatch : List ((JSError → Bool) × (JSError → String)) → (JSError → String) → JSError → String
  | [], dflt, e => dflt e
  | (c, m) :: rest, dflt, e => if c e then m e else firstMatch rest dflt e

/-- Modelled from the claim: the classification rules in the precedence the
claim states — timeout, then invalid credentials on 401 or 403, then rate
limit on 429, then upstream validation on 422 surfacing the detail text when
present, then network-unreachable on ENOTFOUND or ECONNREFUSED — followed by
the generic fallback embedding the raw error text. -/
def classifierRules : List ((JSError → Bool) × (JSError → String)) :=
  [ (fun e => decide (e.message = some ("Request timeout")),
     fun _ => "fal.ai request timed out. This model may take longer — try again or increase FAL_TIMEOUT."),
    (fun e => decide (e.status = some 401 ∨ e.status = some 403),
     fun _ => "Invalid fal.ai API key. Please check your FAL_KEY environment variable."),
    (fun e => decide (e.status = some 429),
     fun _ => "fal.ai rate limit exceeded. Please wait a moment and try again."),
    (fun e => decide (e.status = some 422),
     fun e => "fal.ai validation error: " ++ detailOrMessage e),
    (fun e => decide (e.code = some ("ENOTFOUND") ∨ e.code = some ("ECONNREFUSED")),
     fun e => "Failed to connect to fal.ai API: " ++ messageText e) ]

/-- Modelled from the claim: the classifier as an ordered first-match rule
list over `classifierRules` with the generic fallback. -/
def handleErrorSpec (e : JSError) : String :=
  firstMatch classifierRules (fun e => "fal.ai API error: " ++ messageOrError e) e

/-! ## Argument schemas (zod) and parsing -/

/-- An argument bag / validated record: an ordered key-value list. -/
abbrev JObj := List (String × JVal)

/-- One zod field declaration: name, required flag, value check. -/
structure ArgField where
  name : String
  required : Bool
  check : JVal → Bool

/-- A required field. -/
def req (n : String) (c : JVal → Bool) : ArgField := { name := n, required := true, check := c }

/-- An optional field. -/
def opt (n : String) (c : JVal → Bool) : ArgField := { name := n, required := false, check := c }

/-- Optional numeric bounds, as in zod `.min`/`.max`. -/
def inBounds (lo hi : Option ℚ) (q : ℚ) : Bool :=
  (match lo with | some l => decide (l ≤ q) | none => true) &&
  (match hi with | some h => decide (q ≤ h) | none => true)

/-- zod `z.string()`. -/
def zStr : JVal → Bool
  | JVal.str _ => true
  | _ => false

/-- zod `z.string().min(1)`. -/
def zStr1 : JVal → Bool
  | JVal.str s => decide (1 ≤ s.length)
  | _ => false

/-- zod `z.number()` with optional `.min`/`.max`. -/
def zNum (lo hi : Option ℚ) : JVal → Bool
  | JVal.num q => inBounds lo hi q
  | _ => false

/-- zod `z.number().int()` with optional `.min`/`.max`. -/
def zInt (lo hi : Option ℚ) : JVal → Bool
  | JVal.num q => decide (q.den = 1) && inBounds lo hi q
  | _ => false

/-- The zod schema of each tool's dispatch case, fields in source order. -/
def schemaOf : ToolName → List ArgField
  | ToolName.generate_image =>
      [ req ("prompt") zStr1, opt ("image_size") zStr, opt ("num_images") (zInt (some 1) (some 4)),
        opt ("seed") (zInt none none), opt ("output_format") zStr, opt ("save_path") zStr ]
  | ToolName.edit_image =>
      [ req ("prompt") zStr1, req ("image_url") zStr1, opt ("image_size") zStr,
        opt ("seed") (zInt none none), opt ("save_path") zStr ]
  | ToolName.image_to_image =>
      [ req ("prompt") zStr1, req ("image_url") zStr1, opt ("strength") (zNum (some 0) (some 1)),
        opt ("image_size") zStr, opt ("num_inference_steps") (zInt (some 1) (some 50)),
        opt ("seed") (zInt none none), opt ("num_images") (zInt (some 1) (some 4)),
        opt ("output_format") zStr, opt ("save_path") zStr ]
  | ToolName.inpaint =>
      [ req ("prompt") zStr1, req ("image_url") zStr1, req ("mask_url") zStr1,
        opt ("image_size") zStr, opt ("num_inference_steps") (zInt (some 1) (some 50)),
        opt ("seed") (zInt none none), opt ("output_format") zStr, opt ("save_path") zStr ]
  | ToolName.style_transfer =>
      [ req ("image_url") zStr1, opt ("image_size") zStr,
        opt ("num_inference_steps") (zInt (some 1) (some 4)), opt ("seed") (zInt none none),
        opt ("num_images") (zInt (some 1) (some 4)), opt ("save_path") zStr ]
  | ToolName.text_to_video =>
      [ req ("prompt") zStr1, opt ("duration") zStr, opt ("aspect_ratio") zStr,
        opt ("negative_prompt") zStr, opt ("save_path") zStr ]
  | ToolName.image_to_video =>
      [ req ("prompt") zStr1, req ("image_url") zStr1, opt ("duration") zStr,
        opt ("aspect_ratio") zStr, opt ("save_path") zStr ]
  | ToolName.lipsync =>
      [ req ("video_url") zStr1, req ("audio_url") zStr1, opt ("save_path") zStr ]
  | ToolName.avatar_video =>
      [ req ("image_url") zStr1, req ("audio_url") zStr1, opt ("save_path") zStr ]
  | ToolName.upscale_image =>
      [ req ("image_url") zStr1, opt ("scale") (zNum (some 1) (some 8)), opt ("save_path") zStr ]
  | ToolName.upscale_video =>
      [ req ("video_url") zStr1, opt ("scale") (zNum (some 1) (some 4)), opt ("save_path") zStr ]
  | ToolName.remove_background =>
      [ req ("image_url") zStr1, opt ("save_path") zStr ]
  | ToolName.remove_video_background =>
      [ req ("video_url") zStr1, opt ("save_path") zStr ]
  | ToolName.face_swap_image =>
      [ req ("base_image_url") zStr1, req ("swap_image_url") zStr1, opt ("save_path") zStr ]
  | ToolName.face_swap_video =>
      [ req ("base_video_url") zStr1, req ("swap_image_url") zStr1, opt ("save_path") zStr ]
  | ToolName.segment_image =>
      [ req ("image_url") zStr1, opt ("prompt") zStr, opt ("save_path") zStr ]
  | ToolName.estimate_depth =>
      [ req ("image_url") zStr1, opt ("save_path") zStr ]
  | ToolName.generate_music =>
      [ req ("prompt") zStr1, opt ("duration") (zNum none none), opt ("save_path") zStr ]
  | ToolName.text_to_speech =>
      [ req ("text") zStr1, opt ("voice_id") zStr, opt ("speed") (zNum (some (1/2)) (some 2)),
        opt ("save_path") zStr ]
  | ToolName.generate_sound_effect =>
      [ req ("prompt") zStr1, opt ("duration_seconds") (zNum none none), opt ("save_path") zStr ]
  | ToolName.image_to_3d =>
      [ req ("image_url") zStr1, opt ("save_path") zStr ]
  | ToolName.retexture_3d =>
      [ req ("model_url") zStr1, req ("prompt") zStr1, opt ("reference_image_url") zStr,
        opt ("save_path") zStr ]

/-- Parse of a single declared field from the raw argument bag: a missing
required field or a failing check rejects; unknown keys are never consulted
(zod strips them). -/
def parseField (args : JObj) (f : ArgField) : Option JObj :=
  match lookupPairs args f.name with
  | some v => if f.check v then some [(f.name, v)] else none
  | none => if f.required then none else some []

/-- `schema.parse(args)`: the validated record, in declared field order, or
`none` when zod would throw. -/
def parseArgs : List ArgField → JObj → Option JObj
  | [], _ => some []
  | f :: fs, args =>
      match parseField args f, parseArgs fs args with
      | some xs, some ys => some (xs ++ ys)
      | _, _ => none

/-- Names of a schema's required fields. -/
def requiredFields (s : List ArgField) : List String :=
  (s.filter (fun f => f.required)).map (fun f => f.name)

/-! ## The dispatch handler -/

/-- The rest-destructuring `const (save_path, ...apiInput) = input`. -/
def stripSavePath (input : JObj) : JObj :=
  input.filter (fun p => if p.1 = "save_path" then false else true)

/-- JS `a || dflt` coerced to a string (used for `save_path || auto` and
`input.output_format || 'png'`). -/
def jsOrString (a : Option JVal) (dflt : String) : String :=
  match probe a with
  | some v => jsToStr v
  | none => dflt

/-- The timestamp sanitizer of `getAutoSavePath`: `":"` and `"."` become `"-"`. -/
def sanitizeTs (s : String) : String :=
  String.mk (s.data.map (fun c => if c = ':' ∨ c = '.' then '-' else c))

/-- `getAutoSavePath` from the dispatcher source; `path.resolve` is modelled
as concatenation of the configured output directory and the filename. -/
def getAutoSavePath (outputDir pfx ext isoNow : String) : String :=
  outputDir ++ "/" ++ pfx ++ "-" ++ sanitizeTs isoNow ++ "." ++ ext

mutual

/-- Model of `JSON.stringify(v, null, 2)`, abstracting from the
pretty-printing whitespace. -/
def stringifyJV : JVal → String
  | JVal.null => "null"
  | JVal.bool b => if b then "true" else "false"
  | JVal.num q => toString q
  | JVal.str s => "\"" ++ s ++ "\""
  | JVal.arr xs => "[" ++ String.intercalate "," (stringifyList xs) ++ "]"
  | JVal.obj fs => "\x7b" ++ String.intercalate "," (stringifyFields fs) ++ "\x7d"

/-- Serializations of the elements of an array. -/
def stringifyList : List JVal → List String
  | [] => []
  | x :: xs => stringifyJV x :: stringifyList xs

/-- Serializations of the fields of an object. -/
def stringifyFields : List (String × JVal) → List String
  | [] => []
  | (k, v) :: rest => ("\"" ++ k ++ "\":" ++ stringifyJV v) :: stringifyFields rest

end

/-- One invocation's observable outcome: the reply flag and text, how often
the upstream client was invoked, how often `downloadFile` ran, and the record
forwarded upstream. -/
structure ToolResponse where
  isError : Bool
  text : String
  upstreamCalls : ℕ
  filesWritten : ℕ
  forwarded : Option JObj

/-- An error-flagged reply after one upstream call and no download. -/
def errResp (msg : String) (fwd : JObj) : ToolResponse :=
  { isError := true, text := msg, upstreamCalls := 1, filesWritten := 0, forwarded := some fwd }

/-- A success reply after one upstream call and one download. -/
def savedResp (msg : String) (fwd : JObj) : ToolResponse :=
  { isError := false, text := msg, upstreamCalls := 1, filesWritten := 1, forwarded := some fwd }

/-- A success reply carrying raw-payload text after one upstream call and no
download. -/
def rawResp (msg : String) (fwd : JObj) : ToolResponse :=
  { isError := false, text := msg, upstreamCalls := 1, filesWritten := 0, forwarded := some fwd }

/-- The validation-failure reply text: the thrown `ZodError` is routed through
`handleError` into the generic fallback; the bracketed placeholder abstracts
the unmodelled `ZodError` message text (no verified property reads it). -/
def zodFailureText : String := "fal.ai API error: [zod validation message]"

/-- The per-tool body of the `CallToolRequestSchema` handler after a
successful `schema.parse`, mirroring each `case` of the source: split off
`save_path`, call the client (its payload is the `resp` parameter), extract a
locator, download once on the save branch, and format the reply text. -/
def dispatchValidated (tool : ToolName) (input : JObj) (resp : JVal)
    (outputDir isoNow : String) : ToolResponse :=
  let apiInput := stripSavePath input
  let save_path := lookupPairs input "save_path"
  match tool with
  | ToolName.generate_image =>
      let urls := extractImageUrls resp
      if urls.isEmpty then
        errResp ("No image was generated. Try rephrasing your prompt.") apiInput
      else
        let savePath := jsOrString save_path
          (getAutoSavePath outputDir "generated" (jsOrString (lookupPairs input "output_format") "png") isoNow)
        let textParts := [ "Image generated and saved to: " ++ savePath ]
          ++ (if 1 < urls.length then
                [ "\nAdditional images: " ++ String.intercalate ", " (jsToStrList (urls.drop 1)) ]
              else [])
          ++ (match getField resp "seed" with
              | some s => [ "\nSeed: " ++ jsToStr s ]
              | none => [])
        savedResp (String.join textParts) apiInput
  | ToolName.edit_image =>
      let urls := extractImageUrls resp
      if urls.isEmpty then
        errResp ("No edited image was generated. Try rephrasing your prompt.") apiInput
      else
        savedResp ("Edited image saved to: " ++
          jsOrString save_path (getAutoSavePath outputDir "edited" "png" isoNow)) apiInput
  | ToolName.image_to_image =>
      let urls := extractImageUrls resp
      if urls.isEmpty then
        errResp ("No image was generated. Try rephrasing your prompt.") apiInput
      else
        savedResp ("Transformed image saved to: " ++
          jsOrString save_path
            (getAutoSavePath outputDir "img2img" (jsOrString (lookupPairs input "output_format") "png") isoNow)) apiInput
  | ToolName.inpaint =>
      let urls := extractImageUrls resp
      if urls.isEmpty then
        errResp ("Inpainting failed. Try a different prompt or mask.") apiInput
      else
        savedResp ("Inpainted image saved to: " ++
          jsOrString save_path
            (getAutoSavePath outputDir "inpainted" (jsOrString (lookupPairs input "output_format") "png") isoNow)) apiInput
  | ToolName.style_transfer =>
      let urls := extractImageUrls resp
      if urls.isEmpty then
        errResp ("Style transfer failed. Try a different reference image.") apiInput
      else
        savedResp ("Style transfer result saved to: " ++
          jsOrString save_path (getAutoSavePath outputDir "style-transfer" "png" isoNow)) apiInput
  | ToolName.text_to_video =>
      match extractVideoUrl resp with
      | none => errResp ("No video was generated. Try rephrasing your prompt.") apiInput
      | some _ =>
          savedResp ("Video generated and saved to: " ++
            jsOrString save_path (getAutoSavePath outputDir "text2video" "mp4" isoNow)) apiInput
  | ToolName.image_to_video =>
      match extractVideoUrl resp with
      | none => errResp ("No video was generated. Try a different image or prompt.") apiInput
      | some _ =>
          savedResp ("Video generated and saved to: " ++
            jsOrString save_path (getAutoSavePath outputDir "img2video" "mp4" isoNow)) apiInput
  | ToolName.lipsync =>
      match extractVideoUrl resp with
      | none => errResp ("Lipsync failed. Check that the video contains a visible face and the audio is clear.") apiInput
      | some _ =>
          savedResp ("Lipsync video saved to: " ++
            jsOrString save_path (getAutoSavePath outputDir "lipsync" "mp4" isoNow)) apiInput
  | ToolName.avatar_video =>
      match extractVideoUrl resp with
      | none => errResp ("Avatar video generation failed. Ensure the image is a clear portrait/headshot.") apiInput
      | some _ =>
          savedResp ("Avatar video saved to: " ++
            jsOrString save_path (getAutoSavePath outputDir "avatar" "mp4" isoNow)) apiInput
  | ToolName.upscale_image =>
      let urls := extractImageUrls resp
      if urls.isEmpty then
        errResp ("Upscaling failed.") apiInput
      else
        savedResp ("Upscaled image saved to: " ++
          jsOrString save_path (getAutoSavePath outputDir "upscaled" "png" isoNow)) apiInput
  | ToolName.upscale_video =>
      match extractVideoUrl resp with
      | none => errResp ("Video upscaling failed.") apiInput
      | some _ =>
          savedResp ("Upscaled video saved to: " ++
            jsOrString save_path (getAutoSavePath outputDir "upscaled" "mp4" isoNow)) apiInput
  | ToolName.remove_background =>
      let urls := extractImageUrls resp
      if urls.isEmpty then
        errResp ("Background removal failed.") apiInput
      else
        savedResp ("Background removed. Saved to: " ++
          jsOrString save_path (getAutoSavePath outputDir "no-bg" "png" isoNow)) apiInput
  | ToolName.remove_video_background =>
      match extractVideoUrl resp with
      | none => errResp ("Video background removal failed.") apiInput
      | some _ =>
          savedResp ("Video background removed. Saved to: " ++
            jsOrString save_path (getAutoSavePath outputDir "no-bg-video" "mp4" isoNow)) apiInput
  | ToolName.face_swap_image =>
      let urls := extractImageUrls resp
      if urls.isEmpty then
        errResp ("Face swap failed. Ensure both images contain clear, visible faces.") apiInput
      else
        savedResp ("Face swap result saved to: " ++
          jsOrString save_path (getAutoSavePath outputDir "face-swap" "png" isoNow)) apiInput
  | ToolName.face_swap_video =>
      match extractVideoUrl resp with
      | none => errResp ("Video face swap failed. Ensure the video has a clear face and the swap image is a good headshot.") apiInput
      | some _ =>
          savedResp ("Face swap video saved to: " ++
            jsOrString save_path (getAutoSavePath outputDir "face-swap-video" "mp4" isoNow)) apiInput
  | ToolName.segment_image =>
      let urls := extractImageUrls resp
      let base := "Segmentation complete.\n\nRaw result:\n" ++ stringifyJV resp
      if (!urls.isEmpty) && truthyO save_path then
        { isError := false, text := base ++ "\n\nMask saved to: " ++ jsOrString save_path "",
          upstreamCalls := 1, filesWritten := 1, forwarded := some apiInput }
      else
        rawResp base apiInput
  | ToolName.estimate_depth =>
      let urls := extractImageUrls resp
      if urls.isEmpty then
        rawResp ("Depth estimation complete.\n\nRaw result:\n" ++ stringifyJV resp) apiInput
      else
        savedResp ("Depth map saved to: " ++
          jsOrString save_path (getAutoSavePath outputDir "depth" "png" isoNow)) apiInput
  | ToolName.generate_music =>
      match extractAudioUrl resp with
      | none => rawResp ("Music generation result:\n" ++ stringifyJV resp) apiInput
      | some _ =>
          savedResp ("Music generated and saved to: " ++
            jsOrString save_path (getAutoSavePath outputDir "music" "mp3" isoNow)) apiInput
  | ToolName.text_to_speech =>
      match extractAudioUrl resp with
      | none => rawResp ("TTS result:\n" ++ stringifyJV resp) apiInput
      | some _ =>
          savedResp ("Speech audio saved to: " ++
            jsOrString save_path (getAutoSavePath outputDir "speech" "mp3" isoNow)) apiInput
  | ToolName.generate_sound_effect =>
      match extractAudioUrl resp with
      | none => rawResp ("Sound effect result:\n" ++ stringifyJV resp) apiInput
      | some _ =>
          savedResp ("Sound effect saved to: " ++
            jsOrString save_path (getAutoSavePath outputDir "sfx" "mp3" isoNow)) apiInput
  | ToolName.image_to_3d =>
      match extract3DUrl resp with
      | none => rawResp ("3D generation result:\n" ++ stringifyJV resp) apiInput
      | some _ =>
          savedResp ("3D model saved to: " ++
            jsOrString save_path (getAutoSavePath outputDir "model" "glb" isoNow)) apiInput
  | ToolName.retexture_3d =>
      match extract3DUrl resp with
      | none => rawResp ("Retexture result:\n" ++ stringifyJV resp) apiInput
      | some _ =>
          savedResp ("Retextured 3D model saved to: " ++
            jsOrString save_path (getAutoSavePath outputDir "retextured" "glb" isoNow)) apiInput

/-- One invocation of the `CallToolRequestSchema` handler: a failing
`schema.parse` throws before any client call and is converted to an
error-flagged reply; otherwise the per-tool body runs with the upstream
payload `resp`. -/
def callTool (tool : ToolName) (args : JObj) (resp : JVal)
    (outputDir isoNow : String) : ToolResponse :=
  match parseArgs (schemaOf tool) args with
  | none =>
      { isError := true, text := zodFailureText, upstreamCalls := 0,
        filesWritten := 0, forwarded := none }
  | some input => dispatchValidated tool input resp outputDir isoNow

/-- The extractor a tool's dispatch case uses yields no locator on `resp`. -/
def noLocator (tool : ToolName) (resp : JVal) : Bool :=
  match tool with
  | ToolName.generate_image => (extractImageUrls resp).isEmpty
  | ToolName.edit_image => (extractImageUrls resp).isEmpty
  | ToolName.image_to_image => (extractImageUrls resp).isEmpty
  | ToolName.inpaint => (extractImageUrls resp).isEmpty
  | ToolName.style_transfer => (extractImageUrls resp).isEmpty
  | ToolName.text_to_video => (extractVideoUrl resp).isNone
  | ToolName.image_to_video => (extractVideoUrl resp).isNone
  | ToolName.lipsync => (extractVideoUrl resp).isNone
  | ToolName.avatar_video => (extractVideoUrl resp).isNone
  | ToolName.upscale_image => (extractImageUrls resp).isEmpty
  | ToolName.upscale_video => (extractVideoUrl resp).isNone
  | ToolName.remove_background => (extractImageUrls resp).isEmpty
  | ToolName.remove_video_background => (extractVideoUrl resp).isNone
  | ToolName.face_swap_image => (extractImageUrls resp).isEmpty
  | ToolName.face_swap_video => (extractVideoUrl resp).isNone
  | ToolName.segment_image => (extractImageUrls resp).isEmpty
  | ToolName.estimate_depth => (extractImageUrls resp).isEmpty
  | ToolName.generate_music => (extractAudioUrl resp).isNone
  | ToolName.text_to_speech => (extractAudioUrl resp).isNone
  | ToolName.generate_sound_effect => (extractAudioUrl resp).isNone
  | ToolName.image_to_3d => (extract3DUrl resp).isNone
  | ToolName.retexture_3d => (extract3DUrl resp).isNone

/-- The tools whose no-locator branch replies success with the serialized raw
payload: the inspection-style tools (segmentation, depth), the audio tools and
the 3D tools. -/
def rawPayloadOp : ToolName → Bool
  | ToolName.segment_image => true
  | ToolName.estimate_depth => true
  | ToolName.generate_music => true
  | ToolName.text_to_speech => true
  | ToolName.generate_sound_effect => true
  | ToolName.image_to_3d => true
  | ToolName.retexture_3d => true
  | _ => false

/-- The validated invocations whose reply is the serialized raw payload
(a success that runs no download): `segment_image` when its mask urls are
empty or no truthy `save_path` was requested, and the depth/audio/3D tools
when their extractor yields no locator. -/
def rawReply (tool : ToolName) (input : JObj) (resp : JVal) : Bool :=
  match tool with
  | ToolName.segment_image =>
      (extractImageUrls resp).isEmpty || !truthyO (lookupPairs input "save_path")
  | ToolName.estimate_depth => (extractImageUrls resp).isEmpty
  | ToolName.generate_music => (extractAudioUrl resp).isNone
  | ToolName.text_to_speech => (extractAudioUrl resp).isNone
  | ToolName.generate_sound_effect => (extractAudioUrl resp).isNone
  | ToolName.image_to_3d => (extract3DUrl resp).isNone
  | ToolName.retexture_3d => (extract3DUrl resp).isNone
  | _ => false

/-! ## Supporting lemmas -/

/-- A missing required field makes the zod parse fail. -/
theorem parseArgs_missing_required (s : List ArgField) (args : JObj) (f : String)
    (hf : f ∈ requiredFields s) (hm : lookupPairs args f = none) :
    parseArgs s args = none := by
  induction s with
  | nil => simp [requiredFields] at hf
  | cons g gs ih =>
      have hcons : requiredFields (g :: gs)
          = if g.required then g.name :: requiredFields gs else requiredFields gs := by
        simp [requiredFields, List.filter_cons]
        split <;> simp
      by_cases hgr : g.required
      · rw [hcons, if_pos hgr] at hf
        rcases List.mem_cons.mp hf with hEq | hTail
        · have hfield : parseField args g = none := by
            simp [parseField, hEq ▸ hm, hgr]
          simp [parseArgs, hfield]
        · have := ih hTail
          simp [parseArgs, this]
      · rw [hcons, if_neg hgr] at hf
        have := ih hf
        simp [parseArgs, this]

/-- `stripSavePath` removes the `save_path` key. -/
theorem stripSavePath_no_save_path (input : JObj) :
    lookupPairs (stripSavePath input) "save_path" = none := by
  induction input with
  | nil => rfl
  | cons p rest ih =>
      by_cases hp : p.1 = "save_path"
      · simpa [stripSavePath, List.filter_cons, hp] using ih
      · simpa [stripSavePath, List.filter_cons, hp, lookupPairs, Ne.symm hp] using ih

/-- `stripSavePath` leaves every other key unchanged. -/
theorem stripSavePath_other_keys (input : JObj) (k : String) (hk : k ≠ "save_path") :
    lookupPairs (stripSavePath input) k = lookupPairs input k := by
  induction input with
  | nil => rfl
  | cons p rest ih =>
      obtain ⟨a, b⟩ := p
      by_cases ha : a = "save_path"
      · have hak : ¬ a = k := by
          rw [ha]; exact fun h => hk h.symm
        have e1 : stripSavePath ((a, b) :: rest) = stripSavePath rest := by
          simp [stripSavePath, List.filter_cons, ha]
        have e2 : lookupPairs ((a, b) :: rest) k = lookupPairs rest k := by
          simp [lookupPairs, hak]
        rw [e1, ih, e2]
      · have e1 : stripSavePath ((a, b) :: rest) = (a, b) :: stripSavePath rest := by
          simp [stripSavePath, List.filter_cons, ha]
        rw [e1]
        by_cases hak : a = k
        · simp [lookupPairs, hak]
        · simp [lookupPairs, hak, ih]

/-! ## Claim theorems -/

/-- C1 (counterexample): the audio tool `generate_music`, on a payload with no
extractable locator, replies with `isError = false` (raw payload text), not
with the error flag the claim asserts for audio and 3D generation tools. -/
theorem generate_music_no_locator_success :
    noLocator ToolName.generate_music (JVal.obj []) = true ∧
    (callTool ToolName.generate_music [("prompt", JVal.str "p")] (JVal.obj []) "out" "ts").isError
      = false := by
  constructor <;> rfl

/-- C1 (amended): when validation succeeds and extraction yields no locator,
the reply carries the error flag exactly for the image and video
generation/editing tools; the inspection-style tools (segmentation, depth) and
the audio and 3D tools reply success with the raw payload serialized as
text. -/
theorem no_locator_reply_flag (tool : ToolName) (args : JObj) (resp : JVal)
    (outputDir isoNow : String) (input : JObj)
    (hp : parseArgs (schemaOf tool) args = some input)
    (hn : noLocator tool resp = true) :
    (callTool tool args resp outputDir isoNow).isError = !(rawPayloadOp tool) := by
  simp only [callTool, hp]
  cases tool <;>
    simp_all [noLocator, rawPayloadOp, dispatchValidated, errResp, savedResp, rawResp,
      List.isEmpty_iff, Option.isNone_iff_eq_none]

/-- C1 (witness): the amended statement at a concrete no-locator invocation of
`generate_image`. -/
theorem no_locator_reply_flag_witness :
    (callTool ToolName.generate_image [("prompt", JVal.str "p")] (JVal.obj []) "out" "ts").isError
      = !(rawPayloadOp ToolName.generate_image) :=
  no_locator_reply_flag ToolName.generate_image [("prompt", JVal.str "p")] (JVal.obj [])
    "out" "ts" [("prompt", JVal.str "p")] (by rfl) (by rfl)

/-- C3 (counterexample): a successful `segment_image` invocation with no
requested save path writes zero files, refuting "exactly one file per
successful invocation". -/
theorem segment_image_success_zero_files :
    (callTool ToolName.segment_image [("image_url", JVal.str "u")] (JVal.obj []) "out" "ts").isError
      = false ∧
    (callTool ToolName.segment_image [("image_url", JVal.str "u")] (JVal.obj []) "out" "ts").filesWritten
      = 0 := by
  constructor <;> rfl

/-- C3 (amended): the download-and-persist step runs at most once per
invocation — never twice; among successful invocations, the raw-payload
replies (segmentation without a truthy requested path or with no extractable
mask, depth/audio/3D with no locator) write zero files, and every other
successful invocation writes exactly one file. -/
theorem files_written_count (tool : ToolName) (args : JObj) (resp : JVal)
    (outputDir isoNow : String) :
    (callTool tool args resp outputDir isoNow).filesWritten ≤ 1 ∧
    (∀ input, parseArgs (schemaOf tool) args = some input →
      (callTool tool args resp outputDir isoNow).isError = false →
      (callTool tool args resp outputDir isoNow).filesWritten
        = (if rawReply tool input resp then 0 else 1)) := by
  unfold callTool
  cases hp : parseArgs (schemaOf tool) args with
  | none => simp
  | some input =>
      constructor
      · cases tool <;>
          simp only [dispatchValidated, errResp, savedResp, rawResp] <;>
          (repeat' split) <;> simp
      · intro input2 hi
        obtain rfl : input = input2 := by
          exact Option.some.inj hi
        cases tool <;>
          simp only [dispatchValidated, rawReply, errResp, savedResp, rawResp] <;>
          (repeat' split) <;> simp_all

/-- C3 (witness): a successful `generate_image` invocation (upstream payload
carrying one image url) writes exactly one file. -/
theorem files_written_count_witness :
    (callTool ToolName.generate_image [("prompt", JVal.str "p")]
        (JVal.obj [("images", JVal.arr [JVal.obj [("url", JVal.str "u")]])])
        "out" "ts").filesWritten = 1 := by
  have h := (files_written_count ToolName.generate_image [("prompt", JVal.str "p")]
      (JVal.obj [("images", JVal.arr [JVal.obj [("url", JVal.str "u")]])])
      "out" "ts").2 [("prompt", JVal.str "p")] rfl (by rfl)
  exact h.trans (by rfl)

/-- C5: for every tool, an argument bag missing one of the tool's required
fields yields an error-flagged validation reply and the upstream client is
never called. -/
theorem missing_required_field_no_upstream (tool : ToolName) (args : JObj) (resp : JVal)
    (outputDir isoNow : String) (f : String)
    (hf : f ∈ requiredFields (schemaOf tool))
    (hm : lookupPairs args f = none) :
    (callTool tool args resp outputDir isoNow).isError = true ∧
    (callTool tool args resp outputDir isoNow).upstreamCalls = 0 := by
  have h := parseArgs_missing_required (schemaOf tool) args f hf hm
  simp [callTool, h]

/-- C5 (witness): `generate_image` with an empty argument bag (missing its
required `prompt`). -/
theorem missing_required_field_no_upstream_witness :
    (callTool ToolName.generate_image [] (JVal.obj []) "out" "ts").isError = true ∧
    (callTool ToolName.generate_image [] (JVal.obj []) "out" "ts").upstreamCalls = 0 :=
  missing_required_field_no_upstream ToolName.generate_image [] (JVal.obj []) "out" "ts"
    "prompt" (by decide) rfl

/-- C9: after a successful parse, the record forwarded upstream is the
validated record with `save_path` filtered out: `save_path` is absent from it
and every other field is forwarded unchanged. -/
theorem forwarded_strips_save_path (tool : ToolName) (args : JObj) (resp : JVal)
    (outputDir isoNow : String) (input : JObj)
    (hp : parseArgs (schemaOf tool) args = some input) :
    (callTool tool args resp outputDir isoNow).forwarded = some (stripSavePath input) ∧
    lookupPairs (stripSavePath input) "save_path" = none ∧
    (∀ k, k ≠ "save_path" → lookupPairs (stripSavePath input) k = lookupPairs input k) := by
  refine ⟨?_, stripSavePath_no_save_path input, fun k hk => stripSavePath_other_keys input k hk⟩
  simp only [callTool, hp]
  cases tool <;>
    simp only [dispatchValidated, errResp, savedResp, rawResp] <;>
    (repeat' split) <;> rfl

/-- C9 (witness): `generate_image` with a `prompt` and a `save_path`; the
forward excludes `save_path` and keeps `prompt` unchanged. -/
theorem forwarded_strips_save_path_witness :
    (callTool ToolName.generate_image
        [("prompt", JVal.str "p"), ("save_path", JVal.str "/tmp/x.png")]
        (JVal.obj []) "out" "ts").forwarded
      = some (stripSavePath [("prompt", JVal.str "p"), ("save_path", JVal.str "/tmp/x.png")]) ∧
    lookupPairs (stripSavePath [("prompt", JVal.str "p"), ("save_path", JVal.str "/tmp/x.png")])
        "save_path" = none ∧
    lookupPairs (stripSavePath [("prompt", JVal.str "p"), ("save_path", JVal.str "/tmp/x.png")])
        "prompt" = some (JVal.str "p") := by
  have h := forwarded_strips_save_path ToolName.generate_image
    [("prompt", JVal.str "p"), ("save_path", JVal.str "/tmp/x.png")] (JVal.obj []) "out" "ts"
    [("prompt", JVal.str "p"), ("save_path", JVal.str "/tmp/x.png")] (by rfl)
  exact ⟨h.1, h.2.1, (h.2.2 "prompt" (by decide)).trans rfl⟩

/-- C6: when the payload has both a plural `images` array and a singular
top-level `url` field, `extractImageUrls` returns the URLs mapped from the
plural array (entry `url` attribute when truthy, else the entry, dropping
falsy values) and ignores the singular field. -/
theorem extractImageUrls_plural_first (d : JVal) (imgs : List JVal) (u : JVal)
    (himg : getField d "images" = some (JVal.arr imgs))
    (hurl : getField d "url" = some u) :
    extractImageUrls d
      = (imgs.map (fun img => jsOr (getField img "url") img)).filter jsTruthy := by
  simp [extractImageUrls, himg]

/-- C6 (witness): the spec example, with both fields present:
the plural sequence wins. -/
theorem extractImageUrls_plural_first_witness :
    extractImageUrls
        (JVal.obj [("images", JVal.arr [JVal.obj [("url", JVal.str "a")]]), ("url", JVal.str "b")])
      = [JVal.str "a"] :=
  (extractImageUrls_plural_first
      (JVal.obj [("images", JVal.arr [JVal.obj [("url", JVal.str "a")]]), ("url", JVal.str "b")])
      [JVal.obj [("url", JVal.str "a")]] (JVal.str "b") rfl rfl).trans rfl

/-- C7: on the payload consisting only of an `output` wrapper holding a
(nonempty) `url`, the video, audio and 3D extractors all return that url via
the generic output-wrapper fallback. -/
theorem output_wrapper_fallback (x : String) (hx : x ≠ "") :
    extractVideoUrl (JVal.obj [("output", JVal.obj [("url", JVal.str x)])]) = some (JVal.str x) ∧
    extractAudioUrl (JVal.obj [("output", JVal.obj [("url", JVal.str x)])]) = some (JVal.str x) ∧
    extract3DUrl (JVal.obj [("output", JVal.obj [("url", JVal.str x)])]) = some (JVal.str x) := by
  refine ⟨?_, ?_, ?_⟩ <;>
    simp [extractVideoUrl, extractAudioUrl, extract3DUrl, probe, getField2, getField,
      lookupPairs, truthyO, jsTruthy, hx]

/-- C7 (witness): the spec example with `url = "x"`. -/
theorem output_wrapper_fallback_witness :
    extractVideoUrl (JVal.obj [("output", JVal.obj [("url", JVal.str "x")])]) = some (JVal.str "x") ∧
    extractAudioUrl (JVal.obj [("output", JVal.obj [("url", JVal.str "x")])]) = some (JVal.str "x") ∧
    extract3DUrl (JVal.obj [("output", JVal.obj [("url", JVal.str "x")])]) = some (JVal.str "x") :=
  output_wrapper_fallback "x" (by decide)

/-- C10: whenever the `images` field is an array, `extractImageUrls` returns
exactly the values mapped from that array and never consults the singular
fallback fields. -/
theorem extractImageUrls_array_branch (d : JVal) (imgs : List JVal)
    (himg : getField d "images" = some (JVal.arr imgs)) :
    extractImageUrls d
      = (imgs.map (fun img => jsOr (getField img "url") img)).filter jsTruthy := by
  simp [extractImageUrls, himg]

/-- C10 (witness): for `(images : [], url : "b")` the result is the empty
list, not `["b"]`. -/
theorem extractImageUrls_array_branch_witness :
    extractImageUrls (JVal.obj [("images", JVal.arr []), ("url", JVal.str "b")]) = [] :=
  (extractImageUrls_array_branch
      (JVal.obj [("images", JVal.arr []), ("url", JVal.str "b")]) [] rfl).trans rfl

/-- C2 (counterexample): `text_to_speech` is an audio job, which the claim
places in the long latency class, yet its client method races against the
base timeout, not 5× the base. -/
theorem text_to_speech_short_counterexample :
    claimLongClass ToolName.text_to_speech = true ∧
    methodTimeoutMs 1 ToolName.text_to_speech
      ≠ (if claimLongClass ToolName.text_to_speech then 1 * 5 else 1) := by
  constructor
  · rfl
  · decide

/-- C2 (amended): every tool races upstream against the base timeout in the
short class and 5× the base in the long class, where the long class comprises
the video jobs, music generation and the 3D jobs, while text-to-speech and
sound-effect generation (and all image-output jobs) are short. -/
theorem methodTimeout_latency_class (base : ℤ) (tool : ToolName) :
    methodTimeoutMs base tool = (if amendedLongClass tool then base * 5 else base) := by
  cases tool <;>
    simp [methodTimeoutMs, amendedLongClass, runTimeoutMs, runLongTimeoutMs]

/-- C4: `handleError` coincides with the first-match-wins composition of the
claim's ordered classification rules (timeout, invalid credentials on 401/403,
rate limit on 429, upstream validation on 422 surfacing the detail text when
present, network-unreachable on ENOTFOUND/ECONNREFUSED) over the generic
fallback embedding the raw error text: exactly one message per failure, in
that precedence. -/
theorem handleError_first_match (e : JSError) :
    handleError e = handleErrorSpec e := by
  simp only [handleError, handleErrorSpec, classifierRules, firstMatch]
  split_ifs <;> simp_all

/-- C8 (code evaluation at the failing input): with `FAL_TIMEOUT` set to
`"abc"`, `parseInt` yields `NaN`; `NaN <= 0` is false in JS, so `loadConfig`
accepts the configuration with a `NaN` timeout, which is not positive. -/
theorem loadConfig_nan_timeout :
    loadConfig { falKey := some "k", falOutputDir := none, falTimeout := some "abc" }
      = Except.ok { apiKey := "k", timeout := JSNum.nan, outputDir := "./generated-media" } ∧
    jsPositive JSNum.nan = false := by
  constructor <;> rfl
